import Mathlib

/-!
Shallow embedding of `inria/models/unet.py` from the
Catalyst-Inria-Segmentation-Example repository, together with theorems
settling the specification claims about that module.

The module defines `UnetSegmentationModel` (encoder -> U-Net decoder ->
dropout + 1x1-conv mask head, with an optional bilinear upsample of the
mask) and fifteen factory functions, each decorated with the `@Model`
registry decorator of the surrounding training framework.

Tensors are embedded symbolically: `forward` is a pure composition of
library layers, so its result is represented as an expression tree that
records exactly which operations were applied, in which order and with
which arguments.  External library constructors (the encoder backbones)
are embedded as records of the arguments the module passes to them,
which is all the module's own behaviour depends on.
-/

namespace InriaUnet

/-- Activation-name constant `ACT_RELU` from `pytorch_toolbelt.modules`. -/
def ACT_RELU : String := "relu"

/-- Activation-name constant `ACT_SWISH` from `pytorch_toolbelt.modules`. -/
def ACT_SWISH : String := "swish"

/-- Modelled from the spec: the key under which the forward pass stores the
predicted mask in its output dictionary.  `OUTPUT_MASK_KEY` is imported by
`unet.py` from the repository's dataset module, which is not part of the
sources under verification; its concrete string value is irrelevant to the
claims, which only use its identity. -/
def OUTPUT_MASK_KEY : String := "mask"

/-- An encoder backbone, embedded as the record of arguments the module
passed to the external constructor, plus the state the module can mutate.
`cicCalls` records every `change_input_channels` call made on the encoder,
in order; a freshly constructed encoder has `cicCalls = []`.  The feature
map widths `channels` are produced by the external backbone implementation
and are left abstract (the module only forwards them to the decoder). -/
structure EncoderModule where
  backbone : String
  pretrainedArg : Option Bool
  layersArg : Option (List Nat)
  activationArg : Option String
  inputChannels : Nat
  cicCalls : List Nat
  channels : List Nat
deriving DecidableEq, Repr

/-- Shared shape of every external encoder constructor call in the module:
record the backbone class name and the arguments passed. -/
def mkEncoder (backbone : String) (pretrainedArg : Option Bool)
    (layersArg : Option (List Nat)) (activationArg : Option String) : EncoderModule :=
  { backbone := backbone
    pretrainedArg := pretrainedArg
    layersArg := layersArg
    activationArg := activationArg
    inputChannels := 3
    cicCalls := []
    channels := [] }

/-- Embedding of `E.Resnet18Encoder(pretrained=..., layers=...)`. -/
def Resnet18Encoder (pretrained : Bool) (layers : List Nat) : EncoderModule :=
  mkEncoder "Resnet18Encoder" (some pretrained) (some layers) none

/-- Embedding of `E.Resnet34Encoder(pretrained=..., layers=...)`. -/
def Resnet34Encoder (pretrained : Bool) (layers : List Nat) : EncoderModule :=
  mkEncoder "Resnet34Encoder" (some pretrained) (some layers) none

/-- Embedding of `E.Resnet50Encoder(pretrained=..., layers=...)`. -/
def Resnet50Encoder (pretrained : Bool) (layers : List Nat) : EncoderModule :=
  mkEncoder "Resnet50Encoder" (some pretrained) (some layers) none

/-- Embedding of `E.Resnet101Encoder(pretrained=..., layers=...)`. -/
def Resnet101Encoder (pretrained : Bool) (layers : List Nat) : EncoderModule :=
  mkEncoder "Resnet101Encoder" (some pretrained) (some layers) none

/-- Embedding of `E.Resnet152Encoder(pretrained=..., layers=...)`. -/
def Resnet152Encoder (pretrained : Bool) (layers : List Nat) : EncoderModule :=
  mkEncoder "Resnet152Encoder" (some pretrained) (some layers) none

/-- Embedding of `E.DenseNet121Encoder(pretrained=..., layers=...)`. -/
def DenseNet121Encoder (pretrained : Bool) (layers : List Nat) : EncoderModule :=
  mkEncoder "DenseNet121Encoder" (some pretrained) (some layers) none

/-- Embedding of `E.DenseNet161Encoder(pretrained=..., layers=...)`. -/
def DenseNet161Encoder (pretrained : Bool) (layers : List Nat) : EncoderModule :=
  mkEncoder "DenseNet161Encoder" (some pretrained) (some layers) none

/-- Embedding of `E.DenseNet169Encoder(pretrained=..., layers=...)`. -/
def DenseNet169Encoder (pretrained : Bool) (layers : List Nat) : EncoderModule :=
  mkEncoder "DenseNet169Encoder" (some pretrained) (some layers) none

/-- Embedding of `E.DenseNet201Encoder(pretrained=..., layers=...)`. -/
def DenseNet201Encoder (pretrained : Bool) (layers : List Nat) : EncoderModule :=
  mkEncoder "DenseNet201Encoder" (some pretrained) (some layers) none

/-- Embedding of `E.HRNetV2Encoder18(pretrained=...)`. -/
def HRNetV2Encoder18 (pretrained : Bool) : EncoderModule :=
  mkEncoder "HRNetV2Encoder18" (some pretrained) none none

/-- Embedding of `E.HRNetV2Encoder34(pretrained=...)`. -/
def HRNetV2Encoder34 (pretrained : Bool) : EncoderModule :=
  mkEncoder "HRNetV2Encoder34" (some pretrained) none none

/-- Embedding of `E.HRNetV2Encoder48(pretrained=...)`. -/
def HRNetV2Encoder48 (pretrained : Bool) : EncoderModule :=
  mkEncoder "HRNetV2Encoder48" (some pretrained) none none

/-- Embedding of `E.EfficientNetB0Encoder()`: called with no arguments. -/
def EfficientNetB0Encoder : EncoderModule :=
  mkEncoder "EfficientNetB0Encoder" none none none

/-- Embedding of `E.EfficientNetB5Encoder()`: called with no arguments. -/
def EfficientNetB5Encoder : EncoderModule :=
  mkEncoder "EfficientNetB5Encoder" none none none

/-- Embedding of `E.EfficientNetB5Encoder(activation=...)`. -/
def EfficientNetB5EncoderAct (activation : String) : EncoderModule :=
  mkEncoder "EfficientNetB5Encoder" none none (some activation)

/-- Embedding of `encoder.change_input_channels(c)`: the call is recorded in
`cicCalls` and the encoder's input channel count is updated. -/
def EncoderModule.change_input_channels (e : EncoderModule) (c : Nat) : EncoderModule :=
  { e with inputChannels := c, cicCalls := e.cicCalls ++ [c] }

/-- The `unet_channels` argument of `UnetSegmentationModel.__init__`, whose
Python annotation is `Union[int, List[int]]`. -/
inductive UnetChannelsArg : Type where
  | int (n : Nat)
  | list (cs : List Nat)
deriving DecidableEq, Repr

/-- Embedding of the Python subscript `unet_channels[0]`: defined only when
`unet_channels` is a non-empty list.  A plain `int` is not subscriptable
(TypeError) and an empty list has no element 0 (IndexError). -/
def getitem0 : UnetChannelsArg → Option Nat
  | .int _ => none
  | .list [] => none
  | .list (c :: _) => some c

/-- Configuration record of the `UNetDecoder` the constructor builds.  The
`unet_block` argument is `UnetBlock` with an `ABN` block specialised to the
given activation, recorded here by that activation's name; `upsample_block`
is `nn.UpsamplingNearest2d`, recorded by name. -/
structure UNetDecoder where
  feature_maps : List Nat
  decoder_features : UnetChannelsArg
  unet_block_abn_activation : String
  upsample_block : String
deriving DecidableEq, Repr

/-- The decoder configuration `UnetSegmentationModel.__init__` constructs
from its arguments. -/
def mkUNetDecoder (encoder : EncoderModule) (unet_channels : UnetChannelsArg)
    (activation : String) : UNetDecoder :=
  { feature_maps := encoder.channels
    decoder_features := unet_channels
    unet_block_abn_activation := activation
    upsample_block := "UpsamplingNearest2d" }

/-- A layer of the mask head: `nn.Dropout2d(p)` or `conv1x1(inC, outC)`. -/
inductive Layer : Type where
  | dropout2d (p : Rat)
  | conv1x1 (inC outC : Nat)
deriving DecidableEq, Repr

/-- The model assembled by `UnetSegmentationModel.__init__`: the encoder, the
decoder configuration, the `mask` head as the ordered list of named layers of
the `nn.Sequential`, and the `full_size_mask` flag. -/
structure UnetSegmentationModel where
  encoder : EncoderModule
  decoder : UNetDecoder
  mask : List (String × Layer)
  full_size_mask : Bool
deriving DecidableEq, Repr

/-- Embedding of `UnetSegmentationModel.__init__`.  The decoder is built
first; then `unet_channels[0]` is taken to size the 1x1 convolution of the
mask head, and that subscript is the one operation that can fail, making the
whole construction return `none`. -/
def UnetSegmentationModel.init (encoder : EncoderModule)
    (unet_channels : UnetChannelsArg) (num_classes : Nat) (dropout : Rat)
    (full_size_mask : Bool) (activation : String) : Option UnetSegmentationModel :=
  let decoder := mkUNetDecoder encoder unet_channels activation
  match getitem0 unet_channels with
  | none => none
  | some c0 =>
    some { encoder := encoder
           decoder := decoder
           mask := [("drop", Layer.dropout2d dropout), ("conv", Layer.conv1x1 c0 num_classes)]
           full_size_mask := full_size_mask }

mutual
/-- Symbolic tensor expressions: the operations `forward` can apply to a
single tensor, applied to the forward input `input`. -/
inductive TExpr : Type where
  | input : TExpr
  | dropout2d : Rat → TExpr → TExpr
  | conv1x1 : Nat → Nat → TExpr → TExpr
  | interpolate : TExpr → List Nat → String → Bool → TExpr
  | elem : TListExpr → Nat → TExpr

/-- Symbolic expressions denoting lists of tensors: the encoder applied to a
tensor (its feature pyramid) and the decoder applied to such a list. -/
inductive TListExpr : Type where
  | encoderApp : EncoderModule → TExpr → TListExpr
  | decoderApp : UNetDecoder → TListExpr → TListExpr
end

/-- Application of one mask-head layer to a symbolic tensor. -/
def applyLayer (l : Layer) (t : TExpr) : TExpr :=
  match l with
  | .dropout2d p => .dropout2d p t
  | .conv1x1 a b => .conv1x1 a b t

/-- Application of an `nn.Sequential` of named layers, first to last. -/
def applySequential (layers : List (String × Layer)) (t : TExpr) : TExpr :=
  layers.foldl (fun acc nl => applyLayer nl.2 acc) t

/-- Embedding of `UnetSegmentationModel.forward`.  `xSize` is `x.size()`, the
shape of the input tensor; the returned value is the output dictionary, as an
association list from keys to symbolic tensors. -/
def UnetSegmentationModel.forward (m : UnetSegmentationModel) (xSize : List Nat) :
    List (String × TExpr) :=
  let x_size := xSize
  let x := TListExpr.encoderApp m.encoder TExpr.input
  let x := TListExpr.decoderApp m.decoder x
  let mask := applySequential m.mask (TExpr.elem x 0)
  let mask :=
    if m.full_size_mask then
      TExpr.interpolate mask (x_size.drop 2) "bilinear" false
    else
      mask
  [(OUTPUT_MASK_KEY, mask)]

/-- Number of channels of a symbolic tensor, when the expression determines
it: a convolution output has exactly its `outC` channels, and dropout and
interpolation preserve the channel count. -/
def outChannels : TExpr → Option Nat
  | .input => none
  | .dropout2d _ t => outChannels t
  | .conv1x1 _ outC _ => some outC
  | .interpolate t _ _ _ => outChannels t
  | .elem _ _ => none

/-- Embedding of `resnet18_unet32`. -/
def resnet18_unet32 (input_channels num_classes : Nat) (dropout : Rat)
    (pretrained : Bool) : Option UnetSegmentationModel :=
  let encoder := Resnet18Encoder pretrained [0, 1, 2, 3, 4]
  let encoder := if input_channels ≠ 3 then encoder.change_input_channels input_channels else encoder
  UnetSegmentationModel.init encoder (UnetChannelsArg.list [32, 64, 128, 256])
    num_classes dropout true ACT_RELU

/-- Embedding of `resnet34_unet32`. -/
def resnet34_unet32 (input_channels num_classes : Nat) (dropout : Rat)
    (pretrained : Bool) : Option UnetSegmentationModel :=
  let encoder := Resnet34Encoder pretrained [0, 1, 2, 3, 4]
  let encoder := if input_channels ≠ 3 then encoder.change_input_channels input_channels else encoder
  UnetSegmentationModel.init encoder (UnetChannelsArg.list [32, 64, 128, 256])
    num_classes dropout true ACT_RELU

/-- Embedding of `resnet50_unet32`. -/
def resnet50_unet32 (input_channels num_classes : Nat) (dropout : Rat)
    (pretrained : Bool) : Option UnetSegmentationModel :=
  let encoder := Resnet50Encoder pretrained [0, 1, 2, 3, 4]
  let encoder := if input_channels ≠ 3 then encoder.change_input_channels input_channels else encoder
  UnetSegmentationModel.init encoder (UnetChannelsArg.list [32, 64, 128, 256])
    num_classes dropout true ACT_RELU

/-- Embedding of `resnet101_unet64`. -/
def resnet101_unet64 (input_channels num_classes : Nat) (dropout : Rat)
    (pretrained : Bool) : Option UnetSegmentationModel :=
  let encoder := Resnet101Encoder pretrained [0, 1, 2, 3, 4]
  let encoder := if input_channels ≠ 3 then encoder.change_input_channels input_channels else encoder
  UnetSegmentationModel.init encoder (UnetChannelsArg.list [64, 128, 256, 512])
    num_classes dropout true ACT_RELU

/-- Embedding of `resnet152_unet32`. -/
def resnet152_unet32 (input_channels num_classes : Nat) (dropout : Rat)
    (pretrained : Bool) : Option UnetSegmentationModel :=
  let encoder := Resnet152Encoder pretrained [0, 1, 2, 3, 4]
  let encoder := if input_channels ≠ 3 then encoder.change_input_channels input_channels else encoder
  UnetSegmentationModel.init encoder (UnetChannelsArg.list [32, 64, 128, 256])
    num_classes dropout true ACT_RELU

/-- Embedding of `densenet121_unet32`. -/
def densenet121_unet32 (input_channels num_classes : Nat) (dropout : Rat)
    (pretrained : Bool) : Option UnetSegmentationModel :=
  let encoder := DenseNet121Encoder pretrained [0, 1, 2, 3, 4]
  let encoder := if input_channels ≠ 3 then encoder.change_input_channels input_channels else encoder
  UnetSegmentationModel.init encoder (UnetChannelsArg.list [32, 64, 128, 256])
    num_classes dropout true ACT_RELU

/-- Embedding of `densenet161_unet32`. -/
def densenet161_unet32 (input_channels num_classes : Nat) (dropout : Rat)
    (pretrained : Bool) : Option UnetSegmentationModel :=
  let encoder := DenseNet161Encoder pretrained [0, 1, 2, 3, 4]
  let encoder := if input_channels ≠ 3 then encoder.change_input_channels input_channels else encoder
  UnetSegmentationModel.init encoder (UnetChannelsArg.list [32, 64, 128, 256])
    num_classes dropout true ACT_RELU

/-- Embedding of `densenet169_unet32`. -/
def densenet169_unet32 (input_channels num_classes : Nat) (dropout : Rat)
    (pretrained : Bool) : Option UnetSegmentationModel :=
  let encoder := DenseNet169Encoder pretrained [0, 1, 2, 3, 4]
  let encoder := if input_channels ≠ 3 then encoder.change_input_channels input_channels else encoder
  UnetSegmentationModel.init encoder (UnetChannelsArg.list [32, 64, 128, 256])
    num_classes dropout true ACT_RELU

/-- Embedding of `densenet201_unet32`. -/
def densenet201_unet32 (input_channels num_classes : Nat) (dropout : Rat)
    (pretrained : Bool) : Option UnetSegmentationModel :=
  let encoder := DenseNet201Encoder pretrained [0, 1, 2, 3, 4]
  let encoder := if input_channels ≠ 3 then encoder.change_input_channels input_channels else encoder
  UnetSegmentationModel.init encoder (UnetChannelsArg.list [32, 64, 128, 256])
    num_classes dropout true ACT_RELU

/-- Embedding of `hrnet18_unet32`. -/
def hrnet18_unet32 (input_channels num_classes : Nat) (dropout : Rat)
    (pretrained : Bool) : Option UnetSegmentationModel :=
  let encoder := HRNetV2Encoder18 pretrained
  let encoder := if input_channels ≠ 3 then encoder.change_input_channels input_channels else encoder
  UnetSegmentationModel.init encoder (UnetChannelsArg.list [32, 64, 128, 256])
    num_classes dropout true ACT_RELU

/-- Embedding of `hrnet34_unet32`. -/
def hrnet34_unet32 (input_channels num_classes : Nat) (dropout : Rat)
    (pretrained : Bool) : Option UnetSegmentationModel :=
  let encoder := HRNetV2Encoder34 pretrained
  let encoder := if input_channels ≠ 3 then encoder.change_input_channels input_channels else encoder
  UnetSegmentationModel.init encoder (UnetChannelsArg.list [32, 64, 128, 256])
    num_classes dropout true ACT_RELU

/-- Embedding of `hrnet48_unet32`. -/
def hrnet48_unet32 (input_channels num_classes : Nat) (dropout : Rat)
    (pretrained : Bool) : Option UnetSegmentationModel :=
  let encoder := HRNetV2Encoder48 pretrained
  let encoder := if input_channels ≠ 3 then encoder.change_input_channels input_channels else encoder
  UnetSegmentationModel.init encoder (UnetChannelsArg.list [32, 64, 128, 256])
    num_classes dropout true ACT_RELU

/-- Embedding of `b0_unet32`.  Note: the backbone constructor is called with
no arguments, so `pretrained` is not forwarded. -/
def b0_unet32 (input_channels num_classes : Nat) (dropout : Rat)
    (pretrained : Bool) : Option UnetSegmentationModel :=
  let encoder := EfficientNetB0Encoder
  let encoder := if input_channels ≠ 3 then encoder.change_input_channels input_channels else encoder
  UnetSegmentationModel.init encoder (UnetChannelsArg.list [32, 64, 128])
    num_classes dropout true ACT_SWISH

/-- Embedding of `b5_unet32`.  Note: the backbone constructor is called with
no arguments, so `pretrained` is not forwarded. -/
def b5_unet32 (input_channels num_classes : Nat) (dropout : Rat)
    (pretrained : Bool) : Option UnetSegmentationModel :=
  let encoder := EfficientNetB5Encoder
  let encoder := if input_channels ≠ 3 then encoder.change_input_channels input_channels else encoder
  UnetSegmentationModel.init encoder (UnetChannelsArg.list [32, 64, 128])
    num_classes dropout true ACT_SWISH

/-- Embedding of `b5_unet32_relu`.  Note: the backbone constructor receives
only `activation=ACT_RELU`, so `pretrained` is not forwarded. -/
def b5_unet32_relu (input_channels num_classes : Nat) (dropout : Rat)
    (pretrained : Bool) : Option UnetSegmentationModel :=
  let encoder := EfficientNetB5EncoderAct ACT_RELU
  let encoder := if input_channels ≠ 3 then encoder.change_input_channels input_channels else encoder
  UnetSegmentationModel.init encoder (UnetChannelsArg.list [32, 64, 128])
    num_classes dropout true ACT_RELU

/-- The shared five-line factory shape: construct a backbone, adapt its input
channel count when `input_channels` is not 3, and hand it to the shared
constructor together with the per-factory hyperparameters. -/
def factoryTemplate (mk : Bool → EncoderModule) (unet_channels : List Nat)
    (activation : String) (input_channels num_classes : Nat) (dropout : Rat)
    (pretrained : Bool) : Option UnetSegmentationModel :=
  let encoder := mk pretrained
  let encoder := if input_channels ≠ 3 then encoder.change_input_channels input_channels else encoder
  UnetSegmentationModel.init encoder (UnetChannelsArg.list unet_channels)
    num_classes dropout true activation

/-- The type of every factory function in the module. -/
def FactoryFun : Type :=
  Nat → Nat → Rat → Bool → Option UnetSegmentationModel

/-- The factory functions defined in the module, each paired with its name,
in definition order. -/
def moduleFactories : List (String × FactoryFun) :=
  [("resnet18_unet32", resnet18_unet32),
   ("resnet34_unet32", resnet34_unet32),
   ("resnet50_unet32", resnet50_unet32),
   ("resnet101_unet64", resnet101_unet64),
   ("resnet152_unet32", resnet152_unet32),
   ("densenet121_unet32", densenet121_unet32),
   ("densenet161_unet32", densenet161_unet32),
   ("densenet169_unet32", densenet169_unet32),
   ("densenet201_unet32", densenet201_unet32),
   ("hrnet18_unet32", hrnet18_unet32),
   ("hrnet34_unet32", hrnet34_unet32),
   ("hrnet48_unet32", hrnet48_unet32),
   ("b0_unet32", b0_unet32),
   ("b5_unet32", b5_unet32),
   ("b5_unet32_relu", b5_unet32_relu)]

/-- The model registry of the surrounding training framework, embedded as the
list of names registered so far. -/
structure Registry where
  names : List String
deriving DecidableEq, Repr

/-- Embedding of the `@Model` registry decorator: registering a named model
constructor appends its name to the registry. -/
def Model (r : Registry) (name : String) : Registry :=
  { names := r.names ++ [name] }

/-- The registry state after the module is loaded: every factory definition
in the module carries the `@Model` decorator, so loading the module registers
each factory name, in definition order. -/
def moduleRegistry : Registry :=
  (moduleFactories.map Prod.fst).foldl Model { names := [] }

/-- Embedding of the module's `__all__` export list, verbatim. -/
def module_all : List String :=
  ["UnetSegmentationModel",
   "resnet18_unet32",
   "resnet34_unet32",
   "resnet50_unet32",
   "resnet101_unet64",
   "resnet152_unet32",
   "densenet121_unet32",
   "densenet161_unet32",
   "densenet169_unet32",
   "densenet201_unet32",
   "b0_unet32",
   "b5_unet32",
   "b5_unet32_relu"]

/-- The Python subscript `unet_channels[0]` with its library exception made
explicit: a plain `int` raises `TypeError`, an empty list raises
`IndexError`. -/
def getitemE : UnetChannelsArg → Except String Nat
  | .int _ => .error "TypeError: int is not subscriptable"
  | .list [] => .error "IndexError: list index out of range"
  | .list (c :: _) => .ok c

/-- `UnetSegmentationModel.__init__` with exception propagation made
explicit: the subscript `unet_channels[0]` is the only fallible operation,
and the constructor contains no handler of its own, so its exception leaves
the constructor unchanged. -/
def initE (encoder : EncoderModule) (unet_channels : UnetChannelsArg)
    (num_classes : Nat) (dropout : Rat) (full_size_mask : Bool)
    (activation : String) : Except String UnetSegmentationModel := do
  let decoder := mkUNetDecoder encoder unet_channels activation
  let c0 ← getitemE unet_channels
  pure { encoder := encoder
         decoder := decoder
         mask := [("drop", Layer.dropout2d dropout), ("conv", Layer.conv1x1 c0 num_classes)]
         full_size_mask := full_size_mask }

/-- `UnetSegmentationModel.forward` with each delegated library call modelled
as a fallible operation.  The body contains no handler and no raise of its
own: it simply sequences the encoder, the decoder, the mask head and
(conditionally) the interpolation. -/
def forwardE (m : UnetSegmentationModel)
    (encoderRun : TExpr → Except String TListExpr)
    (decoderRun : TListExpr → Except String TListExpr)
    (maskRun : TExpr → Except String TExpr)
    (interpRun : TExpr → List Nat → Except String TExpr)
    (xSize : List Nat) : Except String (List (String × TExpr)) := do
  let e ← encoderRun TExpr.input
  let d ← decoderRun e
  let mask ← maskRun (TExpr.elem d 0)
  let mask ← if m.full_size_mask then interpRun mask (xSize.drop 2) else pure mask
  pure [(OUTPUT_MASK_KEY, mask)]

/-- C1: the forward pass of any successfully constructed model applies, in
order, the encoder to the input, the decoder to the encoder's output, the
mask head (dropout with the constructor's probability, then the 1x1
convolution) to element 0 of the decoder's output, and finally, exactly when
`full_size_mask` is set, the bilinear upsample; the resulting expression
contains no other transformation. -/
theorem c1_forward_pipeline (e : EncoderModule) (c : Nat) (rest : List Nat)
    (nc : Nat) (dr : Rat) (fsm : Bool) (act : String) (xSize : List Nat) :
    (UnetSegmentationModel.init e (UnetChannelsArg.list (c :: rest)) nc dr fsm act).map
        (fun m => m.forward xSize) =
      some [(OUTPUT_MASK_KEY,
        let encoded := TListExpr.encoderApp e TExpr.input
        let decoded := TListExpr.decoderApp
          (mkUNetDecoder e (UnetChannelsArg.list (c :: rest)) act) encoded
        let headOut := TExpr.conv1x1 c nc (TExpr.dropout2d dr (TExpr.elem decoded 0))
        if fsm then TExpr.interpolate headOut (xSize.drop 2) "bilinear" false
        else headOut)] := by
  cases fsm <;> rfl

/-- C2: on a 4-dimensional input of size `[n, c, h, w]`, the forward pass
returns the mask head's output bilinearly interpolated with
`align_corners = false` to the input's last two dimensions `[h, w]` when
`full_size_mask` is set, and returns the head's output unchanged
otherwise. -/
theorem c2_full_size_mask (m : UnetSegmentationModel) (n c h w : Nat) :
    m.forward [n, c, h, w] =
      [(OUTPUT_MASK_KEY,
        let headOut := applySequential m.mask
          (TExpr.elem (TListExpr.decoderApp m.decoder
            (TListExpr.encoderApp m.encoder TExpr.input)) 0)
        if m.full_size_mask then TExpr.interpolate headOut [h, w] "bilinear" false
        else headOut)] := by
  rfl

/-- C3: any successfully constructed model's mask head is exactly a dropout
layer with the constructor's probability followed by a 1x1 convolution from
the first element of `unet_channels` to `num_classes` channels, and the mask
the forward pass returns therefore has `num_classes` channels. -/
theorem c3_mask_head (e : EncoderModule) (c : Nat) (rest : List Nat) (nc : Nat)
    (dr : Rat) (fsm : Bool) (act : String) (xSize : List Nat) :
    (UnetSegmentationModel.init e (UnetChannelsArg.list (c :: rest)) nc dr fsm act).map
        UnetSegmentationModel.mask =
      some [("drop", Layer.dropout2d dr), ("conv", Layer.conv1x1 c nc)] ∧
    (UnetSegmentationModel.init e (UnetChannelsArg.list (c :: rest)) nc dr fsm act).map
        (fun m => (m.forward xSize).map fun p => outChannels p.2) =
      some [some nc] := by
  refine ⟨rfl, ?_⟩
  cases fsm <;> rfl

/-- C9: the dictionary returned by the forward pass has exactly one entry,
and its key is `OUTPUT_MASK_KEY`. -/
theorem c9_output_keys (m : UnetSegmentationModel) (xSize : List Nat) :
    (m.forward xSize).map Prod.fst = [OUTPUT_MASK_KEY] := by
  rfl

/-- Helper: a factory-template instance with a non-empty channel list always
constructs a model. -/
theorem factoryTemplate_isSome (mk : Bool → EncoderModule) (c0 : Nat)
    (cs : List Nat) (act : String) (ic nc : Nat) (dr : Rat) (pt : Bool) :
    (factoryTemplate mk (c0 :: cs) act ic nc dr pt).isSome = true := by
  rfl

/-- Helper: a factory-template instance hands the model exactly the
`pretrained` argument that the backbone constructor received (the optional
`change_input_channels` call does not touch it). -/
theorem factoryTemplate_pretrainedArg (mk : Bool → EncoderModule) (c0 : Nat)
    (cs : List Nat) (act : String) (ic nc : Nat) (dr : Rat) (pt : Bool) :
    (factoryTemplate mk (c0 :: cs) act ic nc dr pt).map
        (fun m => m.encoder.pretrainedArg) =
      some ((mk pt).pretrainedArg) := by
  by_cases h : ic = 3 <;>
    simp [factoryTemplate, UnetSegmentationModel.init, getitem0,
      EncoderModule.change_input_channels, h]

/-- Helper: in a factory-template instance whose backbone starts with no
recorded `change_input_channels` calls, the constructed model's encoder
records exactly one such call when `input_channels` differs from 3 and none
otherwise. -/
theorem factoryTemplate_cicCalls (mk : Bool → EncoderModule)
    (hmk : ∀ b, (mk b).cicCalls = []) (c0 : Nat) (cs : List Nat) (act : String)
    (ic nc : Nat) (dr : Rat) (pt : Bool) :
    (factoryTemplate mk (c0 :: cs) act ic nc dr pt).map
        (fun m => m.encoder.cicCalls) =
      some (if ic = 3 then [] else [ic]) := by
  by_cases h : ic = 3 <;>
    simp [factoryTemplate, UnetSegmentationModel.init, getitem0,
      EncoderModule.change_input_channels, h, hmk]

/-- C4 counterexample: `b0_unet32` does not forward its `pretrained`
parameter to the backbone constructor: called with `pretrained = false`, the
backbone it builds records no `pretrained` argument at all. -/
theorem c4_counterexample :
    (b0_unet32 3 1 0 false).map (fun m => m.encoder.pretrainedArg) ≠
      some (some false) := by
  decide

/-- C4 (amended): every factory in the module is an instance of the shared
template, differing only in the backbone constructor, the channel-width
list and the activation; the twelve ResNet, DenseNet and HRNet factories
forward their `pretrained` parameter to the backbone constructor, while the
three EfficientNet factories (`b0_unet32`, `b5_unet32`, `b5_unet32_relu`)
ignore it and call the backbone constructor without it. -/
theorem c4_factory_template :
    (∀ ic nc dr pt, resnet18_unet32 ic nc dr pt =
      factoryTemplate (fun p => Resnet18Encoder p [0, 1, 2, 3, 4])
        [32, 64, 128, 256] ACT_RELU ic nc dr pt) ∧
    (∀ ic nc dr pt, resnet34_unet32 ic nc dr pt =
      factoryTemplate (fun p => Resnet34Encoder p [0, 1, 2, 3, 4])
        [32, 64, 128, 256] ACT_RELU ic nc dr pt) ∧
    (∀ ic nc dr pt, resnet50_unet32 ic nc dr pt =
      factoryTemplate (fun p => Resnet50Encoder p [0, 1, 2, 3, 4])
        [32, 64, 128, 256] ACT_RELU ic nc dr pt) ∧
    (∀ ic nc dr pt, resnet101_unet64 ic nc dr pt =
      factoryTemplate (fun p => Resnet101Encoder p [0, 1, 2, 3, 4])
        [64, 128, 256, 512] ACT_RELU ic nc dr pt) ∧
    (∀ ic nc dr pt, resnet152_unet32 ic nc dr pt =
      factoryTemplate (fun p => Resnet152Encoder p [0, 1, 2, 3, 4])
        [32, 64, 128, 256] ACT_RELU ic nc dr pt) ∧
    (∀ ic nc dr pt, densenet121_unet32 ic nc dr pt =
      factoryTemplate (fun p => DenseNet121Encoder p [0, 1, 2, 3, 4])
        [32, 64, 128, 256] ACT_RELU ic nc dr pt) ∧
    (∀ ic nc dr pt, densenet161_unet32 ic nc dr pt =
      factoryTemplate (fun p => DenseNet161Encoder p [0, 1, 2, 3, 4])
        [32, 64, 128, 256] ACT_RELU ic nc dr pt) ∧
    (∀ ic nc dr pt, densenet169_unet32 ic nc dr pt =
      factoryTemplate (fun p => DenseNet169Encoder p [0, 1, 2, 3, 4])
        [32, 64, 128, 256] ACT_RELU ic nc dr pt) ∧
    (∀ ic nc dr pt, densenet201_unet32 ic nc dr pt =
      factoryTemplate (fun p => DenseNet201Encoder p [0, 1, 2, 3, 4])
        [32, 64, 128, 256] ACT_RELU ic nc dr pt) ∧
    (∀ ic nc dr pt, hrnet18_unet32 ic nc dr pt =
      factoryTemplate (fun p => HRNetV2Encoder18 p)
        [32, 64, 128, 256] ACT_RELU ic nc dr pt) ∧
    (∀ ic nc dr pt, hrnet34_unet32 ic nc dr pt =
      factoryTemplate (fun p => HRNetV2Encoder34 p)
        [32, 64, 128, 256] ACT_RELU ic nc dr pt) ∧
    (∀ ic nc dr pt, hrnet48_unet32 ic nc dr pt =
      factoryTemplate (fun p => HRNetV2Encoder48 p)
        [32, 64, 128, 256] ACT_RELU ic nc dr pt) ∧
    (∀ ic nc dr pt, b0_unet32 ic nc dr pt =
      factoryTemplate (fun _ => EfficientNetB0Encoder)
        [32, 64, 128] ACT_SWISH ic nc dr pt) ∧
    (∀ ic nc dr pt, b5_unet32 ic nc dr pt =
      factoryTemplate (fun _ => EfficientNetB5Encoder)
        [32, 64, 128] ACT_SWISH ic nc dr pt) ∧
    (∀ ic nc dr pt, b5_unet32_relu ic nc dr pt =
      factoryTemplate (fun _ => EfficientNetB5EncoderAct ACT_RELU)
        [32, 64, 128] ACT_RELU ic nc dr pt) ∧
    (∀ ic nc dr pt, (resnet18_unet32 ic nc dr pt).map
      (fun m => m.encoder.pretrainedArg) = some (some pt)) ∧
    (∀ ic nc dr pt, (resnet34_unet32 ic nc dr pt).map
      (fun m => m.encoder.pretrainedArg) = some (some pt)) ∧
    (∀ ic nc dr pt, (resnet50_unet32 ic nc dr pt).map
      (fun m => m.encoder.pretrainedArg) = some (some pt)) ∧
    (∀ ic nc dr pt, (resnet101_unet64 ic nc dr pt).map
      (fun m => m.encoder.pretrainedArg) = some (some pt)) ∧
    (∀ ic nc dr pt, (resnet152_unet32 ic nc dr pt).map
      (fun m => m.encoder.pretrainedArg) = some (some pt)) ∧
    (∀ ic nc dr pt, (densenet121_unet32 ic nc dr pt).map
      (fun m => m.encoder.pretrainedArg) = some (some pt)) ∧
    (∀ ic nc dr pt, (densenet161_unet32 ic nc dr pt).map
      (fun m => m.encoder.pretrainedArg) = some (some pt)) ∧
    (∀ ic nc dr pt, (densenet169_unet32 ic nc dr pt).map
      (fun m => m.encoder.pretrainedArg) = some (some pt)) ∧
    (∀ ic nc dr pt, (densenet201_unet32 ic nc dr pt).map
      (fun m => m.encoder.pretrainedArg) = some (some pt)) ∧
    (∀ ic nc dr pt, (hrnet18_unet32 ic nc dr pt).map
      (fun m => m.encoder.pretrainedArg) = some (some pt)) ∧
    (∀ ic nc dr pt, (hrnet34_unet32 ic nc dr pt).map
      (fun m => m.encoder.pretrainedArg) = some (some pt)) ∧
    (∀ ic nc dr pt, (hrnet48_unet32 ic nc dr pt).map
      (fun m => m.encoder.pretrainedArg) = some (some pt)) ∧
    (∀ ic nc dr pt, (b0_unet32 ic nc dr pt).map
      (fun m => m.encoder.pretrainedArg) = some none) ∧
    (∀ ic nc dr pt, (b5_unet32 ic nc dr pt).map
      (fun m => m.encoder.pretrainedArg) = some none) ∧
    (∀ ic nc dr pt, (b5_unet32_relu ic nc dr pt).map
      (fun m => m.encoder.pretrainedArg) = some none) :=
  ⟨fun _ic _nc _dr _pt => rfl, fun _ic _nc _dr _pt => rfl,
   fun _ic _nc _dr _pt => rfl, fun _ic _nc _dr _pt => rfl,
   fun _ic _nc _dr _pt => rfl, fun _ic _nc _dr _pt => rfl,
   fun _ic _nc _dr _pt => rfl, fun _ic _nc _dr _pt => rfl,
   fun _ic _nc _dr _pt => rfl, fun _ic _nc _dr _pt => rfl,
   fun _ic _nc _dr _pt => rfl, fun _ic _nc _dr _pt => rfl,
   fun _ic _nc _dr _pt => rfl, fun _ic _nc _dr _pt => rfl,
   fun _ic _nc _dr _pt => rfl,
   fun ic nc dr pt => factoryTemplate_pretrainedArg
     (fun p => Resnet18Encoder p [0, 1, 2, 3, 4]) 32 [64, 128, 256] ACT_RELU ic nc dr pt,
   fun ic nc dr pt => factoryTemplate_pretrainedArg
     (fun p => Resnet34Encoder p [0, 1, 2, 3, 4]) 32 [64, 128, 256] ACT_RELU ic nc dr pt,
   fun ic nc dr pt => factoryTemplate_pretrainedArg
     (fun p => Resnet50Encoder p [0, 1, 2, 3, 4]) 32 [64, 128, 256] ACT_RELU ic nc dr pt,
   fun ic nc dr pt => factoryTemplate_pretrainedArg
     (fun p => Resnet101Encoder p [0, 1, 2, 3, 4]) 64 [128, 256, 512] ACT_RELU ic nc dr pt,
   fun ic nc dr pt => factoryTemplate_pretrainedArg
     (fun p => Resnet152Encoder p [0, 1, 2, 3, 4]) 32 [64, 128, 256] ACT_RELU ic nc dr pt,
   fun ic nc dr pt => factoryTemplate_pretrainedArg
     (fun p => DenseNet121Encoder p [0, 1, 2, 3, 4]) 32 [64, 128, 256] ACT_RELU ic nc dr pt,
   fun ic nc dr pt => factoryTemplate_pretrainedArg
     (fun p => DenseNet161Encoder p [0, 1, 2, 3, 4]) 32 [64, 128, 256] ACT_RELU ic nc dr pt,
   fun ic nc dr pt => factoryTemplate_pretrainedArg
     (fun p => DenseNet169Encoder p [0, 1, 2, 3, 4]) 32 [64, 128, 256] ACT_RELU ic nc dr pt,
   fun ic nc dr pt => factoryTemplate_pretrainedArg
     (fun p => DenseNet201Encoder p [0, 1, 2, 3, 4]) 32 [64, 128, 256] ACT_RELU ic nc dr pt,
   fun ic nc dr pt => factoryTemplate_pretrainedArg
     (fun p => HRNetV2Encoder18 p) 32 [64, 128, 256] ACT_RELU ic nc dr pt,
   fun ic nc dr pt => factoryTemplate_pretrainedArg
     (fun p => HRNetV2Encoder34 p) 32 [64, 128, 256] ACT_RELU ic nc dr pt,
   fun ic nc dr pt => factoryTemplate_pretrainedArg
     (fun p => HRNetV2Encoder48 p) 32 [64, 128, 256] ACT_RELU ic nc dr pt,
   fun ic nc dr pt => factoryTemplate_pretrainedArg
     (fun _ => EfficientNetB0Encoder) 32 [64, 128] ACT_SWISH ic nc dr pt,
   fun ic nc dr pt => factoryTemplate_pretrainedArg
     (fun _ => EfficientNetB5Encoder) 32 [64, 128] ACT_SWISH ic nc dr pt,
   fun ic nc dr pt => factoryTemplate_pretrainedArg
     (fun _ => EfficientNetB5EncoderAct ACT_RELU) 32 [64, 128] ACT_RELU ic nc dr pt⟩

/-- C5: every factory records exactly one `change_input_channels` call, with
argument `input_channels`, when `input_channels` differs from 3, and records
none when it equals 3; in the latter case the encoder reaches the model
constructor exactly as the backbone constructor built it. -/
theorem c5_change_input_channels :
    (∀ ic nc dr pt, (resnet18_unet32 ic nc dr pt).map
      (fun m => m.encoder.cicCalls) = some (if ic = 3 then [] else [ic])) ∧
    (∀ ic nc dr pt, (resnet34_unet32 ic nc dr pt).map
      (fun m => m.encoder.cicCalls) = some (if ic = 3 then [] else [ic])) ∧
    (∀ ic nc dr pt, (resnet50_unet32 ic nc dr pt).map
      (fun m => m.encoder.cicCalls) = some (if ic = 3 then [] else [ic])) ∧
    (∀ ic nc dr pt, (resnet101_unet64 ic nc dr pt).map
      (fun m => m.encoder.cicCalls) = some (if ic = 3 then [] else [ic])) ∧
    (∀ ic nc dr pt, (resnet152_unet32 ic nc dr pt).map
      (fun m => m.encoder.cicCalls) = some (if ic = 3 then [] else [ic])) ∧
    (∀ ic nc dr pt, (densenet121_unet32 ic nc dr pt).map
      (fun m => m.encoder.cicCalls) = some (if ic = 3 then [] else [ic])) ∧
    (∀ ic nc dr pt, (densenet161_unet32 ic nc dr pt).map
      (fun m => m.encoder.cicCalls) = some (if ic = 3 then [] else [ic])) ∧
    (∀ ic nc dr pt, (densenet169_unet32 ic nc dr pt).map
      (fun m => m.encoder.cicCalls) = some (if ic = 3 then [] else [ic])) ∧
    (∀ ic nc dr pt, (densenet201_unet32 ic nc dr pt).map
      (fun m => m.encoder.cicCalls) = some (if ic = 3 then [] else [ic])) ∧
    (∀ ic nc dr pt, (hrnet18_unet32 ic nc dr pt).map
      (fun m => m.encoder.cicCalls) = some (if ic = 3 then [] else [ic])) ∧
    (∀ ic nc dr pt, (hrnet34_unet32 ic nc dr pt).map
      (fun m => m.encoder.cicCalls) = some (if ic = 3 then [] else [ic])) ∧
    (∀ ic nc dr pt, (hrnet48_unet32 ic nc dr pt).map
      (fun m => m.encoder.cicCalls) = some (if ic = 3 then [] else [ic])) ∧
    (∀ ic nc dr pt, (b0_unet32 ic nc dr pt).map
      (fun m => m.encoder.cicCalls) = some (if ic = 3 then [] else [ic])) ∧
    (∀ ic nc dr pt, (b5_unet32 ic nc dr pt).map
      (fun m => m.encoder.cicCalls) = some (if ic = 3 then [] else [ic])) ∧
    (∀ ic nc dr pt, (b5_unet32_relu ic nc dr pt).map
      (fun m => m.encoder.cicCalls) = some (if ic = 3 then [] else [ic])) ∧
    (∀ nc dr pt, (resnet18_unet32 3 nc dr pt).map (fun m => m.encoder) =
      some (Resnet18Encoder pt [0, 1, 2, 3, 4])) ∧
    (∀ nc dr pt, (resnet34_unet32 3 nc dr pt).map (fun m => m.encoder) =
      some (Resnet34Encoder pt [0, 1, 2, 3, 4])) ∧
    (∀ nc dr pt, (resnet50_unet32 3 nc dr pt).map (fun m => m.encoder) =
      some (Resnet50Encoder pt [0, 1, 2, 3, 4])) ∧
    (∀ nc dr pt, (resnet101_unet64 3 nc dr pt).map (fun m => m.encoder) =
      some (Resnet101Encoder pt [0, 1, 2, 3, 4])) ∧
    (∀ nc dr pt, (resnet152_unet32 3 nc dr pt).map (fun m => m.encoder) =
      some (Resnet152Encoder pt [0, 1, 2, 3, 4])) ∧
    (∀ nc dr pt, (densenet121_unet32 3 nc dr pt).map (fun m => m.encoder) =
      some (DenseNet121Encoder pt [0, 1, 2, 3, 4])) ∧
    (∀ nc dr pt, (densenet161_unet32 3 nc dr pt).map (fun m => m.encoder) =
      some (DenseNet161Encoder pt [0, 1, 2, 3, 4])) ∧
    (∀ nc dr pt, (densenet169_unet32 3 nc dr pt).map (fun m => m.encoder) =
      some (DenseNet169Encoder pt [0, 1, 2, 3, 4])) ∧
    (∀ nc dr pt, (densenet201_unet32 3 nc dr pt).map (fun m => m.encoder) =
      some (DenseNet201Encoder pt [0, 1, 2, 3, 4])) ∧
    (∀ nc dr pt, (hrnet18_unet32 3 nc dr pt).map (fun m => m.encoder) =
      some (HRNetV2Encoder18 pt)) ∧
    (∀ nc dr pt, (hrnet34_unet32 3 nc dr pt).map (fun m => m.encoder) =
      some (HRNetV2Encoder34 pt)) ∧
    (∀ nc dr pt, (hrnet48_unet32 3 nc dr pt).map (fun m => m.encoder) =
      some (HRNetV2Encoder48 pt)) ∧
    (∀ nc dr pt, (b0_unet32 3 nc dr pt).map (fun m => m.encoder) =
      some EfficientNetB0Encoder) ∧
    (∀ nc dr pt, (b5_unet32 3 nc dr pt).map (fun m => m.encoder) =
      some EfficientNetB5Encoder) ∧
    (∀ nc dr pt, (b5_unet32_relu 3 nc dr pt).map (fun m => m.encoder) =
      some (EfficientNetB5EncoderAct ACT_RELU)) :=
  ⟨fun ic nc dr pt => factoryTemplate_cicCalls
     (fun p => Resnet18Encoder p [0, 1, 2, 3, 4]) (fun _ => rfl)
     32 [64, 128, 256] ACT_RELU ic nc dr pt,
   fun ic nc dr pt => factoryTemplate_cicCalls
     (fun p => Resnet34Encoder p [0, 1, 2, 3, 4]) (fun _ => rfl)
     32 [64, 128, 256] ACT_RELU ic nc dr pt,
   fun ic nc dr pt => factoryTemplate_cicCalls
     (fun p => Resnet50Encoder p [0, 1, 2, 3, 4]) (fun _ => rfl)
     32 [64, 128, 256] ACT_RELU ic nc dr pt,
   fun ic nc dr pt => factoryTemplate_cicCalls
     (fun p => Resnet101Encoder p [0, 1, 2, 3, 4]) (fun _ => rfl)
     64 [128, 256, 512] ACT_RELU ic nc dr pt,
   fun ic nc dr pt => factoryTemplate_cicCalls
     (fun p => Resnet152Encoder p [0, 1, 2, 3, 4]) (fun _ => rfl)
     32 [64, 128, 256] ACT_RELU ic nc dr pt,
   fun ic nc dr pt => factoryTemplate_cicCalls
     (fun p => DenseNet121Encoder p [0, 1, 2, 3, 4]) (fun _ => rfl)
     32 [64, 128, 256] ACT_RELU ic nc dr pt,
   fun ic nc dr pt => factoryTemplate_cicCalls
     (fun p => DenseNet161Encoder p [0, 1, 2, 3, 4]) (fun _ => rfl)
     32 [64, 128, 256] ACT_RELU ic nc dr pt,
   fun ic nc dr pt => factoryTemplate_cicCalls
     (fun p => DenseNet169Encoder p [0, 1, 2, 3, 4]) (fun _ => rfl)
     32 [64, 128, 256] ACT_RELU ic nc dr pt,
   fun ic nc dr pt => factoryTemplate_cicCalls
     (fun p => DenseNet201Encoder p [0, 1, 2, 3, 4]) (fun _ => rfl)
     32 [64, 128, 256] ACT_RELU ic nc dr pt,
   fun ic nc dr pt => factoryTemplate_cicCalls
     (fun p => HRNetV2Encoder18 p) (fun _ => rfl)
     32 [64, 128, 256] ACT_RELU ic nc dr pt,
   fun ic nc dr pt => factoryTemplate_cicCalls
     (fun p => HRNetV2Encoder34 p) (fun _ => rfl)
     32 [64, 128, 256] ACT_RELU ic nc dr pt,
   fun ic nc dr pt => factoryTemplate_cicCalls
     (fun p => HRNetV2Encoder48 p) (fun _ => rfl)
     32 [64, 128, 256] ACT_RELU ic nc dr pt,
   fun ic nc dr pt => factoryTemplate_cicCalls
     (fun _ => EfficientNetB0Encoder) (fun _ => rfl)
     32 [64, 128] ACT_SWISH ic nc dr pt,
   fun ic nc dr pt => factoryTemplate_cicCalls
     (fun _ => EfficientNetB5Encoder) (fun _ => rfl)
     32 [64, 128] ACT_SWISH ic nc dr pt,
   fun ic nc dr pt => factoryTemplate_cicCalls
     (fun _ => EfficientNetB5EncoderAct ACT_RELU) (fun _ => rfl)
     32 [64, 128] ACT_RELU ic nc dr pt,
   fun _nc _dr _pt => rfl, fun _nc _dr _pt => rfl, fun _nc _dr _pt => rfl,
   fun _nc _dr _pt => rfl, fun _nc _dr _pt => rfl, fun _nc _dr _pt => rfl,
   fun _nc _dr _pt => rfl, fun _nc _dr _pt => rfl, fun _nc _dr _pt => rfl,
   fun _nc _dr _pt => rfl, fun _nc _dr _pt => rfl, fun _nc _dr _pt => rfl,
   fun _nc _dr _pt => rfl, fun _nc _dr _pt => rfl, fun _nc _dr _pt => rfl⟩

/-- C6: the module registers every factory function it defines with the
`@Model` decorator: after module load the registry holds exactly the fifteen
factory names, in definition order. -/
theorem c6_all_factories_registered :
    moduleRegistry.names = moduleFactories.map Prod.fst ∧
    moduleFactories.map Prod.fst =
      ["resnet18_unet32", "resnet34_unet32", "resnet50_unet32",
       "resnet101_unet64", "resnet152_unet32", "densenet121_unet32",
       "densenet161_unet32", "densenet169_unet32", "densenet201_unet32",
       "hrnet18_unet32", "hrnet34_unet32", "hrnet48_unet32",
       "b0_unet32", "b5_unet32", "b5_unet32_relu"] :=
  ⟨rfl, rfl⟩

/-- C8: constructing a model fails when `unet_channels` is a plain `int` or
the empty list and succeeds on every non-empty list, and each of the fifteen
factories passes a non-empty list, so every factory call constructs a
model. -/
theorem c8_unet_channels_precondition :
    (∀ e n nc dr fsm act,
      UnetSegmentationModel.init e (UnetChannelsArg.int n) nc dr fsm act = none) ∧
    (∀ e nc dr fsm act,
      UnetSegmentationModel.init e (UnetChannelsArg.list []) nc dr fsm act = none) ∧
    (∀ e c rest nc dr fsm act,
      (UnetSegmentationModel.init e (UnetChannelsArg.list (c :: rest))
        nc dr fsm act).isSome = true) ∧
    (∀ ic nc dr pt, (resnet18_unet32 ic nc dr pt).isSome = true) ∧
    (∀ ic nc dr pt, (resnet34_unet32 ic nc dr pt).isSome = true) ∧
    (∀ ic nc dr pt, (resnet50_unet32 ic nc dr pt).isSome = true) ∧
    (∀ ic nc dr pt, (resnet101_unet64 ic nc dr pt).isSome = true) ∧
    (∀ ic nc dr pt, (resnet152_unet32 ic nc dr pt).isSome = true) ∧
    (∀ ic nc dr pt, (densenet121_unet32 ic nc dr pt).isSome = true) ∧
    (∀ ic nc dr pt, (densenet161_unet32 ic nc dr pt).isSome = true) ∧
    (∀ ic nc dr pt, (densenet169_unet32 ic nc dr pt).isSome = true) ∧
    (∀ ic nc dr pt, (densenet201_unet32 ic nc dr pt).isSome = true) ∧
    (∀ ic nc dr pt, (hrnet18_unet32 ic nc dr pt).isSome = true) ∧
    (∀ ic nc dr pt, (hrnet34_unet32 ic nc dr pt).isSome = true) ∧
    (∀ ic nc dr pt, (hrnet48_unet32 ic nc dr pt).isSome = true) ∧
    (∀ ic nc dr pt, (b0_unet32 ic nc dr pt).isSome = true) ∧
    (∀ ic nc dr pt, (b5_unet32 ic nc dr pt).isSome = true) ∧
    (∀ ic nc dr pt, (b5_unet32_relu ic nc dr pt).isSome = true) :=
  ⟨fun _e _n _nc _dr _fsm _act => rfl, fun _e _nc _dr _fsm _act => rfl,
   fun _e _c _rest _nc _dr _fsm _act => rfl,
   fun _ic _nc _dr _pt => rfl, fun _ic _nc _dr _pt => rfl,
   fun _ic _nc _dr _pt => rfl, fun _ic _nc _dr _pt => rfl,
   fun _ic _nc _dr _pt => rfl, fun _ic _nc _dr _pt => rfl,
   fun _ic _nc _dr _pt => rfl, fun _ic _nc _dr _pt => rfl,
   fun _ic _nc _dr _pt => rfl, fun _ic _nc _dr _pt => rfl,
   fun _ic _nc _dr _pt => rfl, fun _ic _nc _dr _pt => rfl,
   fun _ic _nc _dr _pt => rfl, fun _ic _nc _dr _pt => rfl,
   fun _ic _nc _dr _pt => rfl⟩

/-- C10: the module's `__all__` list omits the three HRNet factories even
though they are defined in the module and registered through the `@Model`
decorator exactly like the twelve factories that `__all__` does export. -/
theorem c10_hrnet_factories_not_exported :
    ("hrnet18_unet32" ∉ module_all ∧ "hrnet34_unet32" ∉ module_all ∧
      "hrnet48_unet32" ∉ module_all) ∧
    (["hrnet18_unet32", "hrnet34_unet32", "hrnet48_unet32"].all fun name =>
      (moduleFactories.map Prod.fst).contains name &&
        moduleRegistry.names.contains name) = true ∧
    ((module_all.drop 1).all fun name =>
      (moduleFactories.map Prod.fst).contains name &&
        moduleRegistry.names.contains name) = true := by
  decide

/-- Helper: binding an exceptional result propagates the error unchanged. -/
theorem exceptBind_error {α β : Type} (s : String) (f : α → Except String β) :
    (Except.error s : Except String α) >>= f = Except.error s := rfl

/-- Helper: binding a successful result passes the value on. -/
theorem exceptBind_ok {α β : Type} (a : α) (f : α → Except String β) :
    (Except.ok a : Except String α) >>= f = f a := rfl

/-- C7: the module neither catches nor raises exceptions of its own.  Any
error produced by the forward pass is exactly an error returned by one of
the four library operations it delegates to, at the argument the forward
pass passed it; when every delegated operation succeeds the forward pass
succeeds; and the constructor fails exactly when the `unet_channels[0]`
subscript fails, propagating that error unchanged. -/
theorem c7_exceptions_delegated :
    (∀ (m : UnetSegmentationModel)
        (encoderRun : TExpr → Except String TListExpr)
        (decoderRun : TListExpr → Except String TListExpr)
        (maskRun : TExpr → Except String TExpr)
        (interpRun : TExpr → List Nat → Except String TExpr)
        (xSize : List Nat) (s : String),
        forwardE m encoderRun decoderRun maskRun interpRun xSize = Except.error s →
          encoderRun TExpr.input = Except.error s ∨
          (∃ e, encoderRun TExpr.input = Except.ok e ∧ decoderRun e = Except.error s) ∨
          (∃ e d, encoderRun TExpr.input = Except.ok e ∧ decoderRun e = Except.ok d ∧
            maskRun (TExpr.elem d 0) = Except.error s) ∨
          (∃ e d mk0, encoderRun TExpr.input = Except.ok e ∧ decoderRun e = Except.ok d ∧
            maskRun (TExpr.elem d 0) = Except.ok mk0 ∧ m.full_size_mask = true ∧
            interpRun mk0 (xSize.drop 2) = Except.error s)) ∧
    (∀ (m : UnetSegmentationModel)
        (encoderRun : TExpr → Except String TListExpr)
        (decoderRun : TListExpr → Except String TListExpr)
        (maskRun : TExpr → Except String TExpr)
        (interpRun : TExpr → List Nat → Except String TExpr)
        (xSize : List Nat) (e d : TListExpr) (mk0 mk1 : TExpr),
        encoderRun TExpr.input = Except.ok e →
        decoderRun e = Except.ok d →
        maskRun (TExpr.elem d 0) = Except.ok mk0 →
        (if m.full_size_mask then interpRun mk0 (xSize.drop 2) else pure mk0) =
          Except.ok mk1 →
        forwardE m encoderRun decoderRun maskRun interpRun xSize =
          Except.ok [(OUTPUT_MASK_KEY, mk1)]) ∧
    (∀ e uc nc dr fsm act s,
        initE e uc nc dr fsm act = Except.error s ↔ getitemE uc = Except.error s) ∧
    (∀ e uc nc dr fsm act,
        (∃ m0, initE e uc nc dr fsm act = Except.ok m0) ↔
          ∃ c0, getitemE uc = Except.ok c0) := by
  refine ⟨?_, ?_, ?_, ?_⟩
  · intro m encoderRun decoderRun maskRun interpRun xSize s h
    unfold forwardE at h
    cases hE : encoderRun TExpr.input with
    | error s1 =>
      simp only [hE, exceptBind_error, Except.error.injEq] at h
      subst h
      exact Or.inl rfl
    | ok e =>
      simp only [hE, exceptBind_ok] at h
      cases hD : decoderRun e with
      | error s1 =>
        simp only [hD, exceptBind_error, Except.error.injEq] at h
        subst h
        exact Or.inr (Or.inl ⟨e, rfl, hD⟩)
      | ok d =>
        simp only [hD, exceptBind_ok] at h
        cases hM : maskRun (TExpr.elem d 0) with
        | error s1 =>
          simp only [hM, exceptBind_error, Except.error.injEq] at h
          subst h
          exact Or.inr (Or.inr (Or.inl ⟨e, d, rfl, hD, hM⟩))
        | ok mk0 =>
          simp only [hM, exceptBind_ok] at h
          cases hF : m.full_size_mask with
          | false =>
            simp [hF, pure_bind] at h
            exact Except.noConfusion h
          | true =>
            simp only [hF, if_true] at h
            cases hI : interpRun mk0 (xSize.drop 2) with
            | error s1 =>
              simp only [hI, exceptBind_error, Except.error.injEq] at h
              subst h
              exact Or.inr (Or.inr (Or.inr ⟨e, d, mk0, rfl, hD, hM, rfl, hI⟩))
            | ok mk1 =>
              simp [hI, pure_bind] at h
  · intro m encoderRun decoderRun maskRun interpRun xSize e d mk0 mk1 hE hD hM hI
    unfold forwardE
    rw [hE, exceptBind_ok, hD, exceptBind_ok, hM, exceptBind_ok]
    by_cases hF : m.full_size_mask = true
    · rw [if_pos hF] at hI
      rw [if_pos hF, hI]
      rfl
    · rw [if_neg hF] at hI
      have hI' : Except.ok mk0 = Except.ok mk1 := hI
      injection hI' with hmk
      subst hmk
      rw [if_neg hF]
      rfl
  · intro e uc nc dr fsm act s
    cases uc with
    | int n => simp [initE, getitemE, exceptBind_error]
    | list cs =>
      cases cs with
      | nil => simp [initE, getitemE, exceptBind_error]
      | cons c rest => simp [initE, getitemE, exceptBind_ok]
  · intro e uc nc dr fsm act
    cases uc with
    | int n => simp [initE, getitemE, exceptBind_error]
    | list cs =>
      cases cs with
      | nil => simp [initE, getitemE, exceptBind_error]
      | cons c rest => simp [initE, getitemE, exceptBind_ok]

/-- Witness for C7: at the concrete empty channel list, the constructor's
error is exactly the subscript's library error, obtained from the
propagation theorem at that input. -/
theorem c7_exceptions_delegated_witness :
    initE EfficientNetB0Encoder (UnetChannelsArg.list []) 1 0 true ACT_RELU =
      Except.error "IndexError: list index out of range" :=
  (c7_exceptions_delegated.2.2.1 EfficientNetB0Encoder (UnetChannelsArg.list [])
    1 0 true ACT_RELU "IndexError: list index out of range").mpr rfl

end InriaUnet
